import Mathlib

/-!
# Verification of the resume ATS-analysis pipeline

Shallow embedding of the document-scoring pipeline of this repository:
the advanced analyzer class implemented in `src/unnamed/part_002`
(`AdvancedATSAnalyzer`) and the text extractor / fallback analyzer in
`src/services/pdfTextExtractor.js` (`PDFTextExtractor`).

Conventions of the embedding:
* JavaScript strings are Lean `String`s; character-level work happens on
  `String.data : List Char`.  All texts of interest are ASCII, where
  `Char.toLower` agrees with `String.prototype.toLowerCase` and Lean's
  `String.length` agrees with the JS UTF-16 `length`.
* JS numbers that the source only ever holds as integers are `Nat`;
  `Math.round(a / b * 100)` for naturals is `jsRound100`.
* The regular expressions of the source are embedded as hand-rolled
  matchers over `List Char` that recognise exactly the same language
  (each matcher documents the regex it implements, including the
  backtracking cases where greediness matters).
* Fallible JS code (functions that can throw) returns `Except String`.
* The remote generative-AI collaborator and the `crypto` hash are outside
  this repository; they enter as explicit parameters (`AICallOutcome`,
  an abstract digest function).
-/

/-- JS whitespace for the regex class `\s`, restricted to the ASCII range that
the analysed texts use: space, tab, newline, carriage return, vertical tab and
form feed. -/
def isJsSpace (c : Char) : Bool :=
  c = ' ' || c = '\t' || c = '\n' || c = '\r' || c = '\x0b' || c = '\x0c'

/-- ASCII decimal digit, the regex class `\d` / `[0-9]`. -/
def isDigitChar (c : Char) : Bool := '0' ≤ c && c ≤ '9'

/-- ASCII letter, the regex class `[a-zA-Z]`. -/
def isAsciiAlpha (c : Char) : Bool := ('a' ≤ c && c ≤ 'z') || ('A' ≤ c && c ≤ 'Z')

/-- ASCII upper-case letter, the regex class `[A-Z]`. -/
def isUpperAZ (c : Char) : Bool := 'A' ≤ c && c ≤ 'Z'

/-- regex word character `\w` = `[A-Za-z0-9_]`, used for `\b` boundary tests. -/
def isWordChar (c : Char) : Bool := isAsciiAlpha c || isDigitChar c || c = '_'

/-- String.prototype.toLowerCase, which on ASCII text is per-character
lowercasing. -/
def jsToLower (s : String) : String := ⟨s.data.map Char.toLower⟩

/-- startsWithL l p: the character list p is an initial segment of l. -/
def startsWithL : List Char → List Char → Bool
  | _, [] => true
  | [], _ :: _ => false
  | c :: cs, d :: ds => c = d && startsWithL cs ds

/-- hasSub hay needle: needle occurs contiguously inside hay
(String.prototype.includes). -/
def hasSub : List Char → List Char → Bool
  | [], needle => needle.isEmpty
  | c :: cs, needle => startsWithL (c :: cs) needle || hasSub cs needle

/-- containsStr hay needle: String form of `hasSub` (hay.includes(needle)). -/
def containsStr (hay needle : String) : Bool := hasSub hay.data needle.data

/-- String.prototype.trim: strip JS whitespace from both ends. -/
def jsTrim (s : String) : String :=
  ⟨((s.data.dropWhile isJsSpace).reverse.dropWhile isJsSpace).reverse⟩

/-- splitPredAux p cs acc: split cs at every character satisfying p, keeping
empty pieces (acc is the reversed current piece). -/
def splitPredAux (p : Char → Bool) : List Char → List Char → List String
  | [], acc => [⟨acc.reverse⟩]
  | c :: rest, acc =>
    if p c then ⟨acc.reverse⟩ :: splitPredAux p rest []
    else splitPredAux p rest (c :: acc)

/-- text.split separator semantics of JS String.prototype.split with a
single-character separator: split at every occurrence, empty pieces kept. -/
def jsSplitChar (sep : Char) (s : String) : List String :=
  splitPredAux (fun c => c = sep) s.data []

/-- text.split on the regex `\s+` followed by discarding empty tokens.  JS
`split(/\s+/)` additionally keeps an empty first token when the text starts
with whitespace (and one empty token for empty input); every consumer in the
source filters the tokens by `length > 3`, so the empty tokens are
unobservable and are dropped here. -/
def splitWsNonEmpty (s : String) : List String :=
  (splitPredAux isJsSpace s.data []).filter (fun w => w ≠ "")

/-- jsSetDedupAux seen l: keep the elements of l not already in seen,
accumulating the kept ones into seen. -/
def jsSetDedupAux (seen : List String) : List String → List String
  | [] => []
  | x :: xs =>
    if seen.any (fun y => decide (y = x)) then jsSetDedupAux seen xs
    else x :: jsSetDedupAux (x :: seen) xs

/-- spread of an array through `new Set`, i.e. `[...new Set(xs)]`: duplicates
removed, first-seen order preserved. -/
def jsSetDedup (l : List String) : List String := jsSetDedupAux [] l

/-- Math.round (num / den * 100) for natural `num` and positive `den`:
`⌊num / den * 100 + 1/2⌋` computed exactly over the naturals.  (The JS source
computes this with IEEE doubles; for the integer magnitudes the analyzer
produces the double computation returns the exact rational rounding modelled
here.) -/
def jsRound100 (num den : Nat) : Nat := (200 * num + den) / (2 * den)

/-- eatOptChar p cs consumes one leading character satisfying p if present:
a greedy regex `X?` whose character class is disjoint from every way the
remainder of the pattern could use that character. -/
def eatOptChar (p : Char → Bool) : List Char → List Char
  | [] => []
  | c :: cs => if p c then cs else c :: cs

/-- stripLit lit cs: consume the literal lit from the front of cs. -/
def stripLit (lit : List Char) (cs : List Char) : Option (List Char) :=
  if startsWithL cs lit then some (cs.drop lit.length) else none

/-- digitsToNat: numeric value of a run of decimal digits (what
`parseInt` returns on a string that starts with this digit run). -/
def digitsToNat (ds : List Char) : Nat :=
  ds.foldl (fun acc c => 10 * acc + (c.toNat - '0'.toNat)) 0

/-- countRunsAux p prevIn cs: number of maximal runs of characters satisfying
p inside cs, given whether the previous character satisfied p.  The global
match count of a regex `[class]+`. -/
def countRunsAux (p : Char → Bool) : Bool → List Char → Nat
  | _, [] => 0
  | prevIn, c :: rest =>
    (if p c && !prevIn then 1 else 0) + countRunsAux p (p c) rest

/-- countAlphaRuns: global match count of `/[a-zA-Z]+/g`. -/
def countAlphaRuns (cs : List Char) : Nat := countRunsAux isAsciiAlpha false cs

/-- hasFourDigits: the regex `\d{4}` matches somewhere (four consecutive
decimal digits occur). -/
def hasFourDigits : List Char → Bool
  | [] => false
  | a :: rest =>
    (isDigitChar a &&
      (match rest with
       | b :: c :: d :: _ => isDigitChar b && isDigitChar c && isDigitChar d
       | _ => false))
    || hasFourDigits rest

/-- countFourDigitRunsAux skip cs: count matches of `\d{4}` while still
inside the tail of a previous match for skip more characters. -/
def countFourDigitRunsAux : Nat → List Char → Nat
  | _, [] => 0
  | skip + 1, _ :: rest => countFourDigitRunsAux skip rest
  | 0, a :: rest =>
    if isDigitChar a &&
        (match rest with
         | b :: c :: d :: _ => isDigitChar b && isDigitChar c && isDigitChar d
         | _ => false) then
      1 + countFourDigitRunsAux 3 rest
    else countFourDigitRunsAux 0 rest

/-- countFourDigitRuns: global match count of `/\d{4}/g` — the regex engine
finds the leftmost four-digit match, then resumes after it, so matches do not
overlap. -/
def countFourDigitRuns (cs : List Char) : Nat := countFourDigitRunsAux 0 cs

/-- isLocalChar: the regex class `[a-zA-Z0-9._%+-]` of the email pattern's
local part. -/
def isLocalChar (c : Char) : Bool :=
  isAsciiAlpha c || isDigitChar c || c = '.' || c = '_' || c = '%' || c = '+' || c = '-'

/-- isDomChar: the regex class `[a-zA-Z0-9.-]` of the email pattern's domain
part. -/
def isDomChar (c : Char) : Bool := isAsciiAlpha c || isDigitChar c || c = '.' || c = '-'

/-- emailTail cs is true iff cs decomposes as w ++ '.' :: x :: y :: t with w
all domain characters and x, y ASCII letters — i.e. the regex fragment
`[a-zA-Z0-9.-]*\.[a-zA-Z]{2,}` matches a prefix of cs for some (backtracked)
split.  Together with one known leading domain character this is exactly
`[a-zA-Z0-9.-]+\.[a-zA-Z]{2,}`. -/
def emailTail : List Char → Bool
  | [] => false
  | c :: rest =>
    (c = '.' &&
      (match rest with
       | x :: y :: _ => isAsciiAlpha x && isAsciiAlpha y
       | _ => false))
    || (isDomChar c && emailTail rest)

/-- emailAfterAt cs: the regex fragment `[a-zA-Z0-9.-]+\.[a-zA-Z]{2,}` matches
a prefix of cs. -/
def emailAfterAt : List Char → Bool
  | [] => false
  | c :: rest => isDomChar c && emailTail rest

/-- jsEmailTest: regex.test for `[a-zA-Z0-9._%+-]+@[a-zA-Z0-9.-]+\.[a-zA-Z]{2,}`
— a match exists iff some '@' is directly preceded by a local-part character
(the `+` needs at least one) and followed by a domain match. -/
def jsEmailTest : List Char → Bool
  | [] => false
  | a :: rest =>
    (isLocalChar a &&
      (match rest with
       | '@' :: cs => emailAfterAt cs
       | _ => false))
    || jsEmailTest rest

/-- isPhoneSep: the regex class `[-.\s]` of the phone pattern. -/
def isPhoneSep (c : Char) : Bool := c = '-' || c = '.' || isJsSpace c

/-- eatDigits n cs: consume exactly n decimal digits (`[0-9]{n}`). -/
def eatDigits : Nat → List Char → Option (List Char)
  | 0, cs => some cs
  | _ + 1, [] => none
  | n + 1, c :: cs => if isDigitChar c then eatDigits n cs else none

/-- phoneCore cs: the regex fragment
`\(?[0-9]{3}\)?[-.\s]?[0-9]{3}[-.\s]?[0-9]{4}` matches a prefix of cs.  Every
optional element here can be consumed greedily without backtracking: each
optional character class is disjoint from the digit the pattern requires
next. -/
def phoneCore (cs : List Char) : Bool :=
  let cs1 := eatOptChar (fun c => c = '(') cs
  match eatDigits 3 cs1 with
  | none => false
  | some cs2 =>
    let cs3 := eatOptChar (fun c => c = ')') cs2
    let cs4 := eatOptChar isPhoneSep cs3
    match eatDigits 3 cs4 with
    | none => false
    | some cs5 =>
      let cs6 := eatOptChar isPhoneSep cs5
      (eatDigits 4 cs6).isSome

/-- phoneLeadGroup cs: the group `\+?1[-.\s]?` matches a prefix of cs (returning
the rest).  Greedy consumption of the optional '+' and separator is again
safe: '+' is not '1' and a separator is not a digit. -/
def phoneLeadGroup (cs : List Char) : Option (List Char) :=
  match eatOptChar (fun c => c = '+') cs with
  | '1' :: rest => some (eatOptChar isPhoneSep rest)
  | _ => none

/-- phoneAt cs: the full phone regex
`(\+?1[-.\s]?)?\(?[0-9]{3}\)?[-.\s]?[0-9]{3}[-.\s]?[0-9]{4}` matches a prefix
of cs.  The one real backtracking point is the leading optional group: a '1'
it consumes may instead be needed by the first `[0-9]{3}` (e.g. in
"1234567890"), so both alternatives are tried. -/
def phoneAt (cs : List Char) : Bool :=
  (match phoneLeadGroup cs with
   | some rest => phoneCore rest
   | none => false)
  || phoneCore cs

/-- jsPhoneTest: regex.test for the phone pattern (match at any position). -/
def jsPhoneTest : List Char → Bool
  | [] => false
  | c :: rest => phoneAt (c :: rest) || jsPhoneTest rest

/-- litThenClassScan lit cls cs: a match of the regex `lit[cls]+` exists in cs
(the literal followed by at least one class character); used for the
LinkedIn and GitHub URL patterns. -/
def litThenClassScan (lit : List Char) (cls : Char → Bool) : List Char → Bool
  | [] => startsWithL [] lit && false
  | c :: rest =>
    (match stripLit lit (c :: rest) with
     | some (d :: _) => cls d
     | _ => false)
    || litThenClassScan lit cls rest

/-- months: the alternatives of `(?:Jan|Feb|Mar|Apr|May|Jun|Jul|Aug|Sep|Oct|Nov|Dec)`. -/
def months : List String :=
  ["Jan", "Feb", "Mar", "Apr", "May", "Jun", "Jul", "Aug", "Sep", "Oct", "Nov", "Dec"]

/-- monthScanAux prev cs: a month alternative matches at some position of cs
whose preceding character (prev for the head position) is not a word
character — the `\b` boundary; there is no closing `\b`, so "January"
matches via "Jan". -/
def monthScanAux : Option Char → List Char → Bool
  | _, [] => false
  | prev, c :: rest =>
    ((match prev with
      | none => true
      | some p => !isWordChar p)
      && months.any (fun m => startsWithL (c :: rest) m.data))
    || monthScanAux (some c) rest

/-- monthBoundaryTest: regex.test for `\b(?:Jan|...|Dec)` (case-sensitive, as
in the duration patterns of the source). -/
def monthBoundaryTest (cs : List Char) : Bool := monthScanAux none cs

/-- wordAtBothBoundaries w cs: w matches at the head of cs and the following
character (if any) is not a word character — the closing `\b` of a
`\bWord\b` pattern. -/
def wordAtBothBoundaries (w : List Char) (cs : List Char) : Bool :=
  startsWithL cs w &&
    (match cs.drop w.length with
     | [] => true
     | d :: _ => !isWordChar d)

/-- wordListBoundaryAux ws prev cs: some word of ws occurs in cs with a `\b`
boundary on both sides (preceding character prev at the head position). -/
def wordListBoundaryAux (ws : List (List Char)) : Option Char → List Char → Bool
  | _, [] => false
  | prev, c :: rest =>
    ((match prev with
      | none => true
      | some p => !isWordChar p)
      && ws.any (fun w => wordAtBothBoundaries w (c :: rest)))
    || wordListBoundaryAux ws (some c) rest

/-- wordListBoundaryTest: regex.test for `\b(?:w1|w2|...)\b`. -/
def wordListBoundaryTest (ws : List String) (cs : List Char) : Bool :=
  wordListBoundaryAux (ws.map String.data) none cs

/-- titleAfterClass roles cls cs: having already consumed at least one class
character, the rest of the pattern `[cls]+(?:role1|role2|...)` matches a
prefix of cs for some backtracked split: either a role alternative starts
here, or one more class character is consumed. -/
def titleAfterClass (roles : List (List Char)) (cls : Char → Bool) : List Char → Bool
  | [] => false
  | c :: rest =>
    roles.any (fun r => startsWithL (c :: rest) r)
    || (cls c && titleAfterClass roles cls rest)

/-- titleStartMatch first cls roles line: the anchored regex
`^[first][cls]+(?:role1|...)` matches line (used for the job-title and
company patterns of extractExperience). -/
def titleStartMatch (first : Char → Bool) (cls : Char → Bool) (roles : List String)
    (line : List Char) : Bool :=
  match line with
  | [] => false
  | c :: rest =>
    first c &&
      (match rest with
       | [] => false
       | d :: rest2 => cls d && titleAfterClass (roles.map String.data) cls rest2)

/-- AIAnalysis: the parsed JSON object returned by the generative-AI
collaborator, restricted to the fields the orchestration code reads when
merging (`atsScore`, `grade`, `feedback`); the remaining reply fields do not
influence any behaviour studied here. -/
structure AIAnalysis where
  atsScore : Nat
  grade : String
  feedback : List String
deriving DecidableEq

/-- AICallOutcome: outcome of one call to the generative-text collaborator
(`aiService.generateContent`, a network service outside this repository),
as observed by `performAIAnalysis` in either analyzer class:
transport failure, `success: false` reply, reply text without a `{...}`
JSON object, reply whose JSON does not parse, or a parsed analysis. -/
inductive AICallOutcome where
  | transportFailure (message : String)
  | badResponse (message : String)
  | noJson
  | parseFailure
  | parsed (a : AIAnalysis)
deriving DecidableEq

namespace AdvancedATSAnalyzer

/-! Embedding of the class `AdvancedATSAnalyzer` in `src/unnamed/part_002`. -/

/-- LayoutMeta: the `pdfInfo.layout` object built by `extractLayoutInfo`
(part_002 lines 179-186). -/
structure LayoutMeta where
  hasTables : Bool
  hasImages : Bool
  hasComplexLayout : Bool
  pageCount : Nat
deriving DecidableEq

/-- detectTables (part_002 lines 188-191): the simplified detector always
reports false. -/
def detectTables : Bool := false

/-- detectImages (part_002 lines 193-196): always false. -/
def detectImages : Bool := false

/-- detectComplexLayout (part_002 lines 198-201): always false. -/
def detectComplexLayout : Bool := false

/-- extractLayoutInfo (part_002 lines 179-186). -/
def extractLayoutInfo (pageCount : Nat) : LayoutMeta :=
  { hasTables := detectTables
    hasImages := detectImages
    hasComplexLayout := detectComplexLayout
    pageCount := pageCount }

/-- standardFonts (part_002 lines 166, 171). -/
def standardFonts : List String :=
  ["Arial", "Times New Roman", "Calibri", "Helvetica", "Verdana"]

/-- getPageFonts (part_002 lines 164-168): the placeholder returns the
standard font list for every page. -/
def getPageFonts : List String := standardFonts

/-- checkStandardFonts (part_002 lines 170-173). -/
def checkStandardFonts (fonts : List String) : Bool :=
  fonts.any (fun f => standardFonts.any (fun g => decide (g = f)))

/-- FontsInfo: the `pdfInfo.fonts` object built by `extractFonts`. -/
structure FontsInfo where
  used : List String
  isStandard : Bool
  consistency : Bool
deriving DecidableEq

/-- extractFonts (part_002 lines 147-162): the font Set is the union of
`getPageFonts` over the pages, hence empty for zero pages and exactly the
five standard fonts otherwise; `checkFontConsistency` (lines 175-177) is
`fonts.size <= 3`. -/
def extractFonts (pageCount : Nat) : FontsInfo :=
  let fonts := if pageCount = 0 then [] else getPageFonts
  { used := fonts
    isStandard := checkStandardFonts fonts
    consistency := decide (fonts.length ≤ 3) }

/-- LayoutScore: the result object of `analyzeLayoutStructure`. -/
structure LayoutScore where
  hasProperHeaders : Bool
  consistentFormatting : Bool
  noTables : Bool
  noGraphics : Bool
  properSpacing : Bool
  standardFormat : Bool
  score : Nat
deriving DecidableEq

/-- sectionHeaders (part_002 line 217): the header keywords
`analyzeLayoutStructure` actually searches for. -/
def sectionHeaders : List String :=
  ["summary", "experience", "education", "skills", "contact", "objective"]

/-- countBulletGlyphs: global match count of `/[•·▪▫]/g`. -/
def countBulletGlyphs (cs : List Char) : Nat :=
  cs.countP (fun c => c = '•' || c = '·' || c = '▪' || c = '▫')

/-- countDashLines: global match count of the multiline-anchored regex
matching a '-' at the start of a line — the number of lines beginning
with '-'. -/
def countDashLines (s : String) : Nat :=
  ((jsSplitChar '\n' s).filter (fun l => startsWithL l.data "-".data)).length

/-- checkConsistentFormatting (part_002 lines 240-245):
`Math.abs(bulletPoints - dashes) < 3`. -/
def checkConsistentFormatting (text : String) : Bool :=
  let bulletPoints := countBulletGlyphs text.data
  let dashes := countDashLines text
  decide (((bulletPoints : ℤ) - (dashes : ℤ)).natAbs < 3)

/-- analyzeLayoutStructure (part_002 lines 203-238).  `properSpacing` is
initialised false and no statement assigns it, so it stays false; each true
flag adds its fixed point value to the score. -/
def analyzeLayoutStructure (text : String) (layout : LayoutMeta) : LayoutScore :=
  let t := jsToLower text
  let foundHeaders := sectionHeaders.filter (fun h => containsStr t h)
  let hasProperHeaders := decide (4 ≤ foundHeaders.length)
  let consistentFormatting := checkConsistentFormatting t
  let noTables := !layout.hasTables
  let noGraphics := !layout.hasImages
  let standardFormat := !layout.hasComplexLayout
  let properSpacing := false
  { hasProperHeaders := hasProperHeaders
    consistentFormatting := consistentFormatting
    noTables := noTables
    noGraphics := noGraphics
    properSpacing := properSpacing
    standardFormat := standardFormat
    score :=
      (if hasProperHeaders then 20 else 0) + (if consistentFormatting then 15 else 0) +
        (if noTables then 10 else 0) + (if noGraphics then 10 else 0) +
        (if standardFormat then 10 else 0) + (if properSpacing then 10 else 0) }

/-- FontScore: the result object of `analyzeFontsAndFormatting`. -/
structure FontScore where
  usesStandardFonts : Bool
  consistentFonts : Bool
  appropriateSizing : Bool
  noFancyFormatting : Bool
  score : Nat
deriving DecidableEq

/-- analyzeFontsAndFormatting (part_002 lines 247-263): `appropriateSizing`
and `noFancyFormatting` are hard-coded true. -/
def analyzeFontsAndFormatting (fonts : FontsInfo) : FontScore :=
  let usesStandardFonts := fonts.isStandard
  let consistentFonts := fonts.consistency
  { usesStandardFonts := usesStandardFonts
    consistentFonts := consistentFonts
    appropriateSizing := true
    noFancyFormatting := true
    score :=
      (if usesStandardFonts then 20 else 0) + (if consistentFonts then 15 else 0) +
        (if (true : Bool) then 10 else 0) + (if (true : Bool) then 10 else 0) }

/-- ContentScore: the result object of `analyzeContentQuality`. -/
structure ContentScore where
  hasProfessionalSummary : Bool
  hasDetailedExperience : Bool
  hasRelevantSkills : Bool
  hasEducationInfo : Bool
  hasContactInfo : Bool
  keywordDensity : Nat
  score : Nat
deriving DecidableEq

/-- summaryKeywords (part_002 line 308). -/
def summaryKeywords : List String := ["summary", "profile", "objective", "about"]

/-- hasProfessionalSummary (part_002 lines 307-311): a summary keyword occurs
and some line is longer than 50 characters.  The argument is the already
lower-cased text, exactly as the caller passes it. -/
def hasProfessionalSummary (text : String) : Bool :=
  summaryKeywords.any (fun k => containsStr text k) &&
    (jsSplitChar '\n' text).any (fun line => decide (50 < line.length))

/-- experienceKeywords (part_002 line 314). -/
def experienceKeywords : List String := ["experience", "work history", "employment"]

/-- hasDetailedExperience (part_002 lines 313-317): an experience keyword
occurs and at least two (non-overlapping) four-digit runs occur. -/
def hasDetailedExperience (text : String) : Bool :=
  experienceKeywords.any (fun k => containsStr text k) &&
    decide (2 ≤ countFourDigitRuns text.data)

/-- skillsKeywords (part_002 line 320). -/
def skillsKeywords : List String := ["skills", "competencies", "technologies"]

/-- hasRelevantSkills (part_002 lines 319-323): a skills keyword occurs and
the text has more than 10 alphabetic word runs. -/
def hasRelevantSkills (text : String) : Bool :=
  skillsKeywords.any (fun k => containsStr text k) &&
    decide (10 < countAlphaRuns text.data)

/-- educationKeywords (part_002 line 326). -/
def educationKeywords : List String := ["education", "degree", "university", "college"]

/-- hasEducationInfo (part_002 lines 325-328). -/
def hasEducationInfo (text : String) : Bool :=
  educationKeywords.any (fun k => containsStr text k)

/-- hasContactInfo (part_002 lines 330-334): both the email regex and the
phone regex must match.  The caller passes the lower-cased text. -/
def hasContactInfo (text : String) : Bool :=
  jsEmailTest text.data && jsPhoneTest text.data

/-- technicalKeywords (part_002 lines 337-341): the fixed 19-term vocabulary
of `calculateKeywordDensity`. -/
def technicalKeywords : List String :=
  ["javascript", "python", "java", "react", "node.js", "mongodb", "sql",
   "aws", "docker", "kubernetes", "git", "agile", "scrum", "leadership",
   "management", "analysis", "development", "design", "implementation"]

/-- calculateKeywordDensity (part_002 lines 336-345): the number of vocabulary
terms occurring as substrings of the (lower-cased) text. -/
def calculateKeywordDensity (text : String) : Nat :=
  (technicalKeywords.filter (fun k => containsStr text k)).length

/-- analyzeContentQuality (part_002 lines 265-305). -/
def analyzeContentQuality (text : String) : ContentScore :=
  let lowerText := jsToLower text
  let s := hasProfessionalSummary lowerText
  let e := hasDetailedExperience lowerText
  let sk := hasRelevantSkills lowerText
  let ed := hasEducationInfo lowerText
  let c := hasContactInfo lowerText
  let keywordDensity := calculateKeywordDensity lowerText
  { hasProfessionalSummary := s
    hasDetailedExperience := e
    hasRelevantSkills := sk
    hasEducationInfo := ed
    hasContactInfo := c
    keywordDensity := keywordDensity
    score :=
      (if s then 15 else 0) + (if e then 20 else 0) + (if sk then 15 else 0) +
        (if ed then 10 else 0) + (if c then 15 else 0) + min (keywordDensity * 2) 25 }

/-- ScoreBreakdown: the result object of `calculateAdvancedATSScore` without
the `breakdown` percentage sub-object (three floating-point ratios that no
other code consumes). -/
structure ScoreBreakdown where
  total : Nat
  layout : Nat
  fonts : Nat
  content : Nat
deriving DecidableEq

/-- calculateAdvancedATSScore (part_002 lines 347-362):
`total = Math.min(layout.score + fonts.score + content.score, 100)`.  (The
call site passes a fourth `jobMatch` argument that the parameter list
ignores.) -/
def calculateAdvancedATSScore (layout : LayoutScore) (fonts : FontScore)
    (content : ContentScore) : ScoreBreakdown :=
  let totalScore := layout.score + fonts.score + content.score
  let maxPossible := 100
  { total := min totalScore maxPossible
    layout := layout.score
    fonts := fonts.score
    content := content.score }

/-- heuristicScoring: steps 2-4 and 6 of `analyzeResumeAdvanced` (part_002
lines 51-68) composed — the heuristic ScoreBreakdown for a document with the
given text and page count (the layout metadata comes from the always-false
detectors of `extractLayoutInfo`). -/
def heuristicScoring (text : String) (pageCount : Nat) : ScoreBreakdown :=
  calculateAdvancedATSScore
    (analyzeLayoutStructure text (extractLayoutInfo pageCount))
    (analyzeFontsAndFormatting (extractFonts pageCount))
    (analyzeContentQuality text)

/-- getGrade (part_002 lines 364-372): the 7-band grading scheme. -/
def getGrade (score : Nat) : String :=
  if 90 ≤ score then "A+"
  else if 80 ≤ score then "A"
  else if 70 ≤ score then "B+"
  else if 60 ≤ score then "B"
  else if 50 ≤ score then "C+"
  else if 40 ≤ score then "C"
  else "D"

/-- jobMatchTechnicalKeywords (part_002 lines 694-701): the fixed vocabulary
of `extractKeywords`. -/
def jobMatchTechnicalKeywords : List String :=
  ["javascript", "python", "java", "react", "node.js", "mongodb", "sql",
   "aws", "docker", "kubernetes", "git", "agile", "scrum", "leadership",
   "management", "analysis", "development", "design", "implementation",
   "frontend", "backend", "fullstack", "api", "rest", "graphql",
   "machine learning", "ai", "data science", "analytics", "cloud",
   "devops", "ci/cd", "testing", "automation", "security"]

/-- extractKeywords (part_002 lines 692-712): lower-case the text, split on
whitespace, keep words longer than 3 characters that contain or are contained
in some vocabulary term, and de-duplicate preserving order. -/
def extractKeywords (text : String) : List String :=
  let words := splitWsNonEmpty (jsToLower text)
  let keywords := words.filter (fun word =>
    decide (3 < word.length) &&
      jobMatchTechnicalKeywords.any (fun keyword =>
        containsStr word keyword || containsStr keyword word))
  jsSetDedup keywords

/-- matchedKeywords (part_002 lines 633-638): the job keywords for which some
resume keyword is a (bidirectional, case-folded) substring match. -/
def matchedKeywords (resumeText jobDescription : String) : List String :=
  let jobKeywords := extractKeywords jobDescription
  let resumeKeywords := extractKeywords resumeText
  jobKeywords.filter (fun keyword =>
    resumeKeywords.any (fun resumeKeyword =>
      containsStr (jsToLower resumeKeyword) (jsToLower keyword) ||
        containsStr (jsToLower keyword) (jsToLower resumeKeyword)))

/-- keywordMatchField (part_002 lines 640 and 667): the `keywordMatch` field
of the object `analyzeJobMatch` returns.  Line 640 computes
`Math.round(matched.length / jobKeywords.length * 100)`, which is NaN when
the job description yields zero keywords (0/0); line 667 returns
`keywordMatch || 0`, which maps both NaN and 0 to 0.  The NaN intermediate is
modelled by branching on the zero denominator before rounding. -/
def keywordMatchField (resumeText jobDescription : String) : Nat :=
  let jobKeywords := extractKeywords jobDescription
  if jobKeywords.length = 0 then 0
  else jsRound100 (matchedKeywords resumeText jobDescription).length jobKeywords.length

/-- expYearsAt cs: the regex `(\d+)[\s-]*(\+)?[\s]*years?[\s]*of[\s]*experience`
matches at the head of cs (already lower-cased for the `i` flag); returns the
`parseInt` value of the match, i.e. the value of the leading digit run.
Greedy consumption without backtracking is exact for this pattern: every
quantified class is disjoint from the literal the pattern needs next
(digits vs `[\s-]`, `[\s-]` vs '+', '+' vs `\s`, `\s` vs 'y', optional 's'
vs the 'o' of "of"). -/
def expYearsAt (cs : List Char) : Option Nat :=
  let ds := cs.takeWhile isDigitChar
  if ds.isEmpty then none
  else
    let r1 := cs.dropWhile isDigitChar
    let r2 := r1.dropWhile (fun c => isJsSpace c || c = '-')
    let r3 := eatOptChar (fun c => c = '+') r2
    let r4 := r3.dropWhile isJsSpace
    match stripLit "year".data r4 with
    | none => none
    | some r5 =>
      let r6 := eatOptChar (fun c => c = 's') r5
      let r7 := r6.dropWhile isJsSpace
      match stripLit "of".data r7 with
      | none => none
      | some r8 =>
        let r9 := r8.dropWhile isJsSpace
        if startsWithL r9 "experience".data then some (digitsToNat ds) else none

/-- firstExpYearsAux cs: value of the first (leftmost) match of the
experience regex in cs. -/
def firstExpYearsAux : List Char → Option Nat
  | [] => none
  | c :: rest =>
    match expYearsAt (c :: rest) with
    | some n => some n
    | none => firstExpYearsAux rest

/-- parseFirstExperienceYears text: `parseInt(text.match(expRegex)[0])` of the
case-insensitive experience regex, or none when there is no match — the
number of years stated by the first "<N> years of experience" occurrence. -/
def parseFirstExperienceYears (text : String) : Option Nat :=
  firstExpYearsAux (jsToLower text).data

/-- calculateExperienceMatch (part_002 lines 736-749). -/
def calculateExperienceMatch (resumeText jobDescription : String) : Nat :=
  let requiredYears := (parseFirstExperienceYears jobDescription).getD 0
  let actualYears := (parseFirstExperienceYears resumeText).getD 0
  if requiredYears = 0 then 100
  else if requiredYears ≤ actualYears then 100
  else jsRound100 actualYears requiredYears

/-- collapseWSAux prevSpace cs: JS `replace(/\s+/g, ' ')` — every maximal
whitespace run becomes a single space. -/
def collapseWSAux : Bool → List Char → List Char
  | _, [] => []
  | prevSpace, c :: rest =>
    if isJsSpace c then
      if prevSpace then collapseWSAux true rest
      else ' ' :: collapseWSAux true rest
    else c :: collapseWSAux false rest

/-- jsNormalizeWS: `(text || '').replace(/\s+/g, ' ').trim()` (part_002
lines 118-119). -/
def jsNormalizeWS (s : String) : String := jsTrim ⟨collapseWSAux false s.data⟩

/-- buildCacheKeyData: the exact byte stream fed to the SHA-256 digest by
buildCacheKey (part_002 lines 117-122): normalized text, "|", the analysis
mode, "|", normalized job description (successive `update` calls concatenate
their inputs). -/
def buildCacheKeyData (text analysisMode jobDescription : String) : String :=
  jsNormalizeWS text ++ "|" ++ analysisMode ++ "|" ++ jsNormalizeWS jobDescription

/-- buildCacheKey (part_002 lines 117-122): the hex digest of the key data.
The SHA-256 implementation lives in Node's `crypto` module, outside this
repository, so the digest enters as an explicit function parameter. -/
def buildCacheKey (sha256Hex : String → String)
    (text analysisMode jobDescription : String) : String :=
  sha256Hex (buildCacheKeyData text analysisMode jobDescription)

/-- performAIAnalysis (part_002 lines 449-622) as called with AI enabled (the
only way `analyzeResumeAdvanced` reaches it; line 450's early null return
needs aiEnabled = false).  A transport failure or a `success: false` reply is
re-thrown with the "AI analysis failed: " prefix (lines 599-601, 618-621); a
reply without a JSON object or with unparsable JSON becomes
"Failed to parse AI response" (lines 606-617) before receiving the same
prefix. -/
def performAIAnalysis (call : AICallOutcome) : Except String AIAnalysis :=
  match call with
  | AICallOutcome.parsed a => Except.ok a
  | AICallOutcome.transportFailure message =>
    Except.error ("AI analysis failed: " ++ message)
  | AICallOutcome.badResponse message =>
    Except.error ("AI analysis failed: " ++ message)
  | AICallOutcome.noJson =>
    Except.error "AI analysis failed: Failed to parse AI response"
  | AICallOutcome.parseFailure =>
    Except.error "AI analysis failed: Failed to parse AI response"

/-- analyzeResumeAdvancedAIStage (part_002 lines 73-79): with AI enabled the
AI analysis is awaited (and any failure propagates); with AI not configured
the method throws synchronously. -/
def analyzeResumeAdvancedAIStage (aiEnabled : Bool) (call : AICallOutcome) :
    Except String AIAnalysis :=
  if aiEnabled then performAIAnalysis call
  else Except.error "AI service is required for analysis. Please configure the AI proxy."

/-- AdvancedResponse: the shape `analyzeResumeAdvanced` resolves with —
`{success: true, analysis}` or, from the catch block (lines 108-114),
`{success: false, error}`.  The analysis payload is abbreviated to the AI
analysis object whose fields populate it (lines 81-103). -/
structure AdvancedResponse where
  success : Bool
  analysis : Option AIAnalysis
  error : Option String
deriving DecidableEq

/-- analyzeResumeAdvancedResponse: the observable response of
`analyzeResumeAdvanced` (part_002 lines 33-115) as a function of the AI
configuration flag and the collaborator call outcome; any throw from the AI
stage is converted by the catch block into `{success: false, error}`. -/
def analyzeResumeAdvancedResponse (aiEnabled : Bool) (call : AICallOutcome) :
    AdvancedResponse :=
  match analyzeResumeAdvancedAIStage aiEnabled call with
  | Except.ok a => { success := true, analysis := some a, error := none }
  | Except.error e => { success := false, analysis := none, error := some e }

end AdvancedATSAnalyzer

/-- jsBoundary prev next: the regex `\b` zero-width assertion holds between
the characters prev and next (none = text edge): exactly one side is a word
character. -/
def jsBoundary (prev next : Option Char) : Bool :=
  (match prev with
   | some c => isWordChar c
   | none => false)
  != (match next with
      | some c => isWordChar c
      | none => false)

namespace PDFTextExtractor

/-! Embedding of the class `PDFTextExtractor` in
`src/services/pdfTextExtractor.js`. -/

/-- SectionMap: the object built by `identifySections` — one presence flag for
each recognised section category, in insertion order summary, experience,
education, skills, projects, certifications. -/
structure SectionMap where
  summary : Bool
  experience : Bool
  education : Bool
  skills : Bool
  projects : Bool
  certifications : Bool
deriving DecidableEq

/-- identifySections (pdfTextExtractor.js lines 295-316): a section is present
iff one of its synonym patterns occurs in the lower-cased text. -/
def identifySections (text : String) : SectionMap :=
  let lowerText := jsToLower text
  { summary := ["summary", "objective", "profile", "about"].any
      (fun p => containsStr lowerText p)
    experience := ["experience", "work history", "employment", "career"].any
      (fun p => containsStr lowerText p)
    education := ["education", "academic", "qualifications", "degrees"].any
      (fun p => containsStr lowerText p)
    skills := ["skills", "competencies", "technologies", "expertise"].any
      (fun p => containsStr lowerText p)
    projects := ["projects", "portfolio", "achievements"].any
      (fun p => containsStr lowerText p)
    certifications := ["certifications", "certificates", "licenses"].any
      (fun p => containsStr lowerText p) }

/-- KeywordBundle: the object built by `extractKeywords` — note the category
key is `action`, not `actionWords` (that mismatch is what makes
`generateFeedback` throw, see below). -/
structure KeywordBundle where
  technical : List String
  soft : List String
  action : List String
  education : List String
  experience : List String
deriving DecidableEq

/-- extractKeywords (pdfTextExtractor.js lines 318-338): per-category fixed
vocabularies filtered by substring occurrence in the lower-cased text. -/
def extractKeywords (text : String) : KeywordBundle :=
  let lowerText := jsToLower text
  { technical := ["javascript", "python", "react", "node.js", "sql", "html",
      "css", "git", "docker", "aws"].filter (fun k => containsStr lowerText k)
    soft := ["leadership", "communication", "teamwork", "problem solving",
      "management", "collaboration"].filter (fun k => containsStr lowerText k)
    action := ["developed", "created", "managed", "led", "implemented",
      "designed", "built", "achieved"].filter (fun k => containsStr lowerText k)
    education := ["bachelor", "master", "degree", "university", "college",
      "phd", "diploma"].filter (fun k => containsStr lowerText k)
    experience := ["years", "experience", "senior", "junior", "intern",
      "internship", "freelance"].filter (fun k => containsStr lowerText k) }

/-- isTldChar: the final character class `[A-Z|a-z]` of the contact email
regex — ASCII letters and, literally, the '|' character. -/
def isTldChar (c : Char) : Bool := isAsciiAlpha c || c = '|'

/-- tldBoundarySearch lastC cs: having consumed at least two top-level-domain
class characters (the last being lastC), the closing `\b` of the email regex
can be placed: either a boundary holds right here, or one more class
character is consumed and the search continues. -/
def tldBoundarySearch : Char → List Char → Bool
  | lastC, [] => isWordChar lastC
  | lastC, c :: rest =>
    (isWordChar lastC != isWordChar c) || (isTldChar c && tldBoundarySearch c rest)

/-- tldMatchBdry cs: the email regex fragment `[A-Z|a-z]{2,}\b` matches a
prefix of cs. -/
def tldMatchBdry : List Char → Bool
  | a :: b :: rest => isTldChar a && isTldChar b && tldBoundarySearch b rest
  | _ => false

/-- emailDomTailBdry cs: cs decomposes as domain characters, then '.', then a
`[A-Z|a-z]{2,}\b` match. -/
def emailDomTailBdry : List Char → Bool
  | [] => false
  | c :: rest => (c = '.' && tldMatchBdry rest) || (isDomChar c && emailDomTailBdry rest)

/-- emailAfterAtBdry cs: the fragment `[A-Za-z0-9.-]+\.[A-Z|a-z]{2,}\b`
matches a prefix of cs. -/
def emailAfterAtBdry : List Char → Bool
  | [] => false
  | c :: rest => isDomChar c && emailDomTailBdry rest

/-- emailLocalFromHere cs: the fragment `[A-Za-z0-9._%+-]+@...` matches at the
head of cs.  The local class excludes '@', so the greedy run up to the first
non-local character is the only candidate. -/
def emailLocalFromHere (cs : List Char) : Bool :=
  let run := cs.takeWhile isLocalChar
  !run.isEmpty &&
    (match cs.drop run.length with
     | '@' :: ds => emailAfterAtBdry ds
     | _ => false)

/-- jsEmailBdryScan prev cs: scan for a start position satisfying the leading
`\b` of the contact email regex. -/
def jsEmailBdryScan : Option Char → List Char → Bool
  | _, [] => false
  | prev, c :: rest =>
    (jsBoundary prev (some c) && isLocalChar c && emailLocalFromHere (c :: rest))
    || jsEmailBdryScan (some c) rest

/-- jsEmailTestBdry: regex.test for the contact email pattern
`\b[A-Za-z0-9._%+-]+@[A-Za-z0-9.-]+\.[A-Z|a-z]{2,}\b` of
extractContactInfo (pdfTextExtractor.js line 344). -/
def jsEmailTestBdry (cs : List Char) : Bool := jsEmailBdryScan none cs

/-- ContactInfo: the object built by `extractContactInfo` — each key is added
only when its regex matches, and downstream code consumes only key presence
(`Object.keys(...).length` in calculateATSScore, truthiness in
generateFeedback), so presence is modelled as a Bool per field. -/
structure ContactInfo where
  email : Bool
  phone : Bool
  linkedin : Bool
  github : Bool
deriving DecidableEq

/-- extractContactInfo (pdfTextExtractor.js lines 340-360).  The phone regex
(line 348) recognises the same language as the part_002 one — its extra
capture groups do not change matching; the LinkedIn and GitHub patterns carry
the `i` flag, handled by lower-casing. -/
def extractContactInfo (text : String) : ContactInfo :=
  { email := jsEmailTestBdry text.data
    phone := jsPhoneTest text.data
    linkedin := litThenClassScan "linkedin.com/in/".data
      (fun c => isAsciiAlpha c || isDigitChar c || c = '-') (jsToLower text).data
    github := litThenClassScan "github.com/".data
      (fun c => isAsciiAlpha c || isDigitChar c || c = '-') (jsToLower text).data }

/-- ExperienceEntry (pdfTextExtractor.js lines 394-399): fields default to
the empty string. -/
structure ExperienceEntry where
  title : String
  company : String
  duration : String
  description : String
deriving DecidableEq

/-- jobTitleRoles: the alternatives of the job-title pattern (line 392). -/
def jobTitleRoles : List String :=
  ["Developer", "Engineer", "Manager", "Analyst", "Designer", "Consultant"]

/-- isTitleClassChar: the class `[a-zA-Z\s]` of the job-title pattern. -/
def isTitleClassChar (c : Char) : Bool := isAsciiAlpha c || isJsSpace c

/-- jobTitleLine: the anchored pattern
`^[A-Z][a-zA-Z\s]+(?:Developer|Engineer|Manager|Analyst|Designer|Consultant)`
(case-sensitive) matches the trimmed line. -/
def jobTitleLine (line : String) : Bool :=
  titleStartMatch isUpperAZ isTitleClassChar jobTitleRoles line.data

/-- companyRoles: the alternatives of the company pattern (line 402). -/
def companyRoles : List String := ["Inc", "LLC", "Corp", "Company", "Ltd"]

/-- isCompanyClassChar: the class `[a-zA-Z\s&.,]` of the company pattern. -/
def isCompanyClassChar (c : Char) : Bool :=
  isAsciiAlpha c || isJsSpace c || c = '&' || c = '.' || c = ','

/-- companyLine: the anchored pattern
`^[A-Z][a-zA-Z\s&.,]+(?:Inc|LLC|Corp|Company|Ltd)` matches the trimmed
line. -/
def companyLine (line : String) : Bool :=
  titleStartMatch isUpperAZ isCompanyClassChar companyRoles line.data

/-- durationLine: the pattern `\d{4}` or `\b` month abbreviation (lines 406
and 463, case-sensitive) matches somewhere in the trimmed line. -/
def durationLine (line : String) : Bool :=
  hasFourDigits line.data || monthBoundaryTest line.data

/-- ExpScanState: the loop state of extractExperience — the in-section flag,
the entry under construction, and the completed entries. -/
structure ExpScanState where
  inSection : Bool
  currentJob : Option ExperienceEntry
  found : List ExperienceEntry
deriving DecidableEq

/-- extractExperienceStep: the body of the forEach over lines in
extractExperience (pdfTextExtractor.js lines 370-414).  The description
branch (line 410) reads, because JS `&&` binds tighter than `||`,
`(currentJob && startsWith '•') || startsWith '-'` — so a line beginning with
'-' enters the branch even when no current entry exists, and
`currentJob.description` then throws a TypeError, embedded as
`Except.error`. -/
def extractExperienceStep (st : ExpScanState) (line : String) :
    Except String ExpScanState :=
  let trimmedLine := jsTrim line
  if trimmedLine = "" then Except.ok st
  else if containsStr (jsToLower trimmedLine) "experience" ||
      containsStr (jsToLower trimmedLine) "work history" then
    Except.ok { st with inSection := true }
  else if st.inSection &&
      (containsStr (jsToLower trimmedLine) "education" ||
        containsStr (jsToLower trimmedLine) "skills") then
    Except.ok { st with inSection := false }
  else if st.inSection then
    if jobTitleLine trimmedLine then
      Except.ok { st with
        found := st.found ++ st.currentJob.toList
        currentJob := some ⟨trimmedLine, "", "", ""⟩ }
    else
      match st.currentJob with
      | some j =>
        if j.company = "" && companyLine trimmedLine then
          Except.ok { st with currentJob := some { j with company := trimmedLine } }
        else if durationLine trimmedLine then
          Except.ok { st with currentJob := some { j with duration := trimmedLine } }
        else if startsWithL trimmedLine.data "•".data ||
            startsWithL trimmedLine.data "-".data then
          let j2 := { j with description := j.description ++ trimmedLine ++ " " }
          Except.ok { st with currentJob := some j2 }
        else Except.ok st
      | none =>
        if startsWithL trimmedLine.data "-".data then
          Except.error "Cannot read properties of null (reading 'description')"
        else Except.ok st
  else Except.ok st

/-- extractExperience (pdfTextExtractor.js lines 362-418): scan the lines,
then flush any still-open entry. -/
def extractExperience (text : String) : Except String (List ExperienceEntry) := do
  let final ← (jsSplitChar '\n' text).foldlM extractExperienceStep
    { inSection := false, currentJob := none, found := [] }
  pure (final.found ++ final.currentJob.toList)

/-- EducationEntry (pdfTextExtractor.js lines 451-456). -/
structure EducationEntry where
  degree : String
  institution : String
  duration : String
  description : String
deriving DecidableEq

/-- degreeWords: the alternatives of the degree pattern (line 449),
lower-cased for its `i` flag. -/
def degreeWords : List String :=
  ["bachelor", "master", "phd", "associate", "diploma", "certificate"]

/-- degreeLine: the pattern `\b(?:Bachelor|Master|PhD|Associate|Diploma|Certificate)\b`
with the `i` flag matches somewhere in the trimmed line. -/
def degreeLine (line : String) : Bool :=
  wordListBoundaryTest degreeWords (jsToLower line).data

/-- institutionLine: the pattern `University|College|Institute|School` with
the `i` flag matches somewhere in the trimmed line. -/
def institutionLine (line : String) : Bool :=
  ["university", "college", "institute", "school"].any
    (fun p => containsStr (jsToLower line) p)

/-- EduScanState: the loop state of extractEducation. -/
structure EduScanState where
  inSection : Bool
  currentEdu : Option EducationEntry
  found : List EducationEntry
deriving DecidableEq

/-- extractEducationStep: the body of the forEach over lines in
extractEducation (pdfTextExtractor.js lines 427-467); unlike
extractExperienceStep every entry-field branch is guarded by `currentEdu`,
so this step is total. -/
def extractEducationStep (st : EduScanState) (line : String) : EduScanState :=
  let trimmedLine := jsTrim line
  if trimmedLine = "" then st
  else if containsStr (jsToLower trimmedLine) "education" ||
      containsStr (jsToLower trimmedLine) "academic" then
    { st with inSection := true }
  else if st.inSection &&
      (containsStr (jsToLower trimmedLine) "skills" ||
        containsStr (jsToLower trimmedLine) "experience") then
    { st with inSection := false }
  else if st.inSection then
    if degreeLine trimmedLine then
      { st with
        found := st.found ++ st.currentEdu.toList
        currentEdu := some ⟨trimmedLine, "", "", ""⟩ }
    else
      match st.currentEdu with
      | some e =>
        if e.institution = "" && institutionLine trimmedLine then
          { st with currentEdu := some { e with institution := trimmedLine } }
        else if durationLine trimmedLine then
          { st with currentEdu := some { e with duration := trimmedLine } }
        else st
      | none => st
  else st

/-- extractEducation (pdfTextExtractor.js lines 420-471). -/
def extractEducation (text : String) : List EducationEntry :=
  let final := (jsSplitChar '\n' text).foldl extractEducationStep
    { inSection := false, currentEdu := none, found := [] }
  final.found ++ final.currentEdu.toList

/-- skillPatterns (pdfTextExtractor.js lines 478-488): the fixed skill
vocabulary of extractSkills. -/
def skillPatterns : List String :=
  ["javascript", "python", "java", "react", "angular", "vue", "node.js",
   "express", "mongodb", "mysql", "postgresql", "redis", "docker",
   "kubernetes", "aws", "azure", "git", "github", "gitlab", "jenkins",
   "ci/cd", "agile", "scrum", "photoshop", "illustrator", "figma", "sketch",
   "adobe", "ui/ux", "wireframing", "leadership", "communication", "teamwork",
   "problem solving", "project management", "analytical", "creative",
   "detail-oriented", "time management"]

/-- extractSkills (pdfTextExtractor.js lines 473-497): vocabulary terms
occurring as substrings of the lower-cased text; the closing
`[...new Set(skills)]` is a no-op because the vocabulary has no
duplicates. -/
def extractSkills (text : String) : List String :=
  let lowerText := jsToLower text
  skillPatterns.filter (fun skill => containsStr lowerText skill)

/-- Analysis: the analysis object that fallbackAnalysis builds
(pdfTextExtractor.js lines 183-196).  `aiEnhanced` models the presence of
the JS property of the same name: `none` when the property was never
assigned (every heuristic-path object), `some true` when the AI merge in
analyzeResumeText sets it (line 69) — no code path ever assigns `false`. -/
structure Analysis where
  sections : SectionMap
  keywords : KeywordBundle
  contactInfo : ContactInfo
  experience : List ExperienceEntry
  education : List EducationEntry
  skills : List String
  atsScore : Nat
  feedback : List String
  grade : String
  recommendations : List String
  strengths : List String
  weaknesses : List String
  aiEnhanced : Option Bool
deriving DecidableEq

/-- contactKeyCount: `Object.keys(analysis.contactInfo).length` — the number
of contact fields whose regex matched (extractContactInfo adds a key only on
a match). -/
def contactKeyCount (c : ContactInfo) : Nat :=
  (if c.email then 1 else 0) + (if c.phone then 1 else 0) +
    (if c.linkedin then 1 else 0) + (if c.github then 1 else 0)

/-- sectionTrueCount: `Object.values(analysis.sections).filter(Boolean).length`. -/
def sectionTrueCount (s : SectionMap) : Nat :=
  (if s.summary then 1 else 0) + (if s.experience then 1 else 0) +
    (if s.education then 1 else 0) + (if s.skills then 1 else 0) +
    (if s.projects then 1 else 0) + (if s.certifications then 1 else 0)

/-- calculateATSScore (pdfTextExtractor.js lines 499-547).  The class defines
two methods of this name; in JS the later definition wins, so this —
contact-presence 20, section structure 30, experience 25, education 15,
skills 10, capped at 100 — is the one fallbackAnalysis calls.  (The method
also pushes per-criterion feedback strings into `analysis.feedback`; that
list is overwritten by the generateFeedback call on the next source line, so
only the returned score is observable.) -/
def calculateATSScore (a : Analysis) : Nat :=
  let score :=
    (if 2 ≤ contactKeyCount a.contactInfo then 20 else 0) +
      (if 4 ≤ sectionTrueCount a.sections then 30 else 0) +
      (if 0 < a.experience.length then 25 else 0) +
      (if 0 < a.education.length then 15 else 0) +
      (if 5 ≤ a.skills.length then 10 else 0)
  min score 100

/-- generateFeedbackRules: the feedback strings accumulated by
generateFeedback (pdfTextExtractor.js lines 252-278) before the crash on
line 280 — see generateFeedback. -/
def generateFeedbackRules (a : Analysis) : List String :=
  (if !a.sections.summary then
    ["ATS requires a professional summary section for better parsing"] else []) ++
  (if !a.sections.experience then
    ["Work experience section is critical for ATS compatibility"] else []) ++
  (if !a.sections.education then
    ["Education section helps ATS categorize your qualifications"] else []) ++
  (if !a.sections.skills then
    ["Dedicated skills section improves ATS keyword matching"] else []) ++
  (if !a.contactInfo.email then
    ["Email address is required for ATS contact parsing"] else []) ++
  (if !a.contactInfo.phone then
    ["Phone number helps ATS complete contact information"] else []) ++
  (if a.keywords.technical.length < 5 then
    ["Include more industry-specific technical keywords for ATS matching"] else [])

/-- generateFeedback (pdfTextExtractor.js lines 248-293).  Line 280 reads
`analysis.keywords.actionWords.length`, but extractKeywords produces the
category under the key `action`, never `actionWords`; the property access on
`undefined` therefore throws a TypeError on every input, discarding the rules
accumulated so far (lines 284-291 are unreachable). -/
def generateFeedback (a : Analysis) : Except String (List String) :=
  let _feedbackSoFar := generateFeedbackRules a
  Except.error "Cannot read properties of undefined (reading 'length')"

/-- fallbackGradeOf: the 4-band grade assignment of fallbackAnalysis
(pdfTextExtractor.js lines 203-206). -/
def fallbackGradeOf (atsScore : Nat) : String :=
  if 80 ≤ atsScore then "A"
  else if 60 ≤ atsScore then "B"
  else if 40 ≤ atsScore then "C"
  else "D"

/-- fallbackAnalysis (pdfTextExtractor.js lines 182-209): build the analysis
object (extractExperience may throw while it is built), compute the score,
then call generateFeedback — which always throws — and finally assign the
4-band grade.  Any throw propagates to the caller. -/
def fallbackAnalysis (text : String) : Except String Analysis := do
  let exp ← extractExperience text
  let a : Analysis :=
    { sections := identifySections text
      keywords := extractKeywords text
      contactInfo := extractContactInfo text
      experience := exp
      education := extractEducation text
      skills := extractSkills text
      atsScore := 0
      feedback := []
      grade := "D"
      recommendations := []
      strengths := []
      weaknesses := []
      aiEnhanced := none }
  let score := calculateATSScore a
  let fb ← generateFeedback a
  pure { a with atsScore := score, feedback := fb, grade := fallbackGradeOf score }

/-- performAIAnalysis (pdfTextExtractor.js lines 88-179): returns null when
AI is not configured (line 89) and null on every failure — transport error,
`success: false` reply, reply without a JSON object, or a JSON parse error
(lines 157-178) — otherwise the parsed analysis object. -/
def performAIAnalysis (aiEnabled : Bool) (call : AICallOutcome) :
    Option AIAnalysis :=
  if !aiEnabled then none
  else
    match call with
    | AICallOutcome.parsed a => some a
    | _ => none

/-- mergeAIAnalysis: the spread `{...fallbackAnalysis, ...aiAnalysis,
aiEnhanced: true}` of analyzeResumeText (lines 66-70), restricted to the AI
reply fields carried by the embedding: the AI fields override the heuristic
ones and the aiEnhanced property appears with value true. -/
def mergeAIAnalysis (fb : Analysis) (ai : AIAnalysis) : Analysis :=
  { fb with
    atsScore := ai.atsScore
    grade := ai.grade
    feedback := ai.feedback
    aiEnhanced := some true }

/-- TextAnalysisResponse: the shape analyzeResumeText resolves with. -/
structure TextAnalysisResponse where
  success : Bool
  analysis : Option Analysis
  error : Option String
deriving DecidableEq

/-- analyzeResumeText (pdfTextExtractor.js lines 51-86): run fallbackAnalysis
first (line 58); if AI is enabled and performAIAnalysis returns an object,
merge it over the heuristic result with `aiEnhanced: true`; if it returns
null, return the heuristic analysis unchanged (no aiEnhanced property, no
error); any throw is converted by the catch block (lines 79-85) into
`{success: false, error}`. -/
def analyzeResumeText (text : String) (aiEnabled : Bool) (call : AICallOutcome) :
    TextAnalysisResponse :=
  match fallbackAnalysis text with
  | Except.error e => { success := false, analysis := none, error := some e }
  | Except.ok fb =>
    if aiEnabled then
      match performAIAnalysis aiEnabled call with
      | some a =>
        { success := true, analysis := some (mergeAIAnalysis fb a), error := none }
      | none => { success := true, analysis := some fb, error := none }
    else { success := true, analysis := some fb, error := none }

end PDFTextExtractor

/-- Modelled from the spec: the six canonical resume sections named by the
specification ("Summary, Experience, Education, Skills, Projects,
Certifications") — the comparison definition for the refinement claim about
`hasProperHeaders`; the code's own list is
`AdvancedATSAnalyzer.sectionHeaders`. -/
def specCanonicalSections : List String :=
  ["summary", "experience", "education", "skills", "projects", "certifications"]

/-- Modelled from the spec: the number of canonical sections present in a
text, presence being case-insensitive occurrence of the section name. -/
def specCanonicalSectionCount (text : String) : Nat :=
  (specCanonicalSections.filter (fun h => containsStr (jsToLower text) h)).length

/-- jsRound100 is the genuine round-half-up nearest-integer rounding of
num / den * 100 (for a positive denominator), stated over the rationals. -/
theorem jsRound100_eq_round (num den : Nat) (hden : den ≠ 0) :
    (jsRound100 num den : ℤ) = round ((num * 100 : ℚ) / den) := by
  have hq : (0 : ℚ) < den := by exact_mod_cast Nat.pos_of_ne_zero hden
  rw [round_eq]
  have h1 : (num * 100 : ℚ) / den + 1 / 2 =
      ((200 * num + den : ℕ) : ℚ) / ((2 * den : ℕ) : ℚ) := by
    push_cast
    field_simp
    ring
  rw [h1, ← Int.natCast_floor_eq_floor (by positivity), Nat.floor_div_eq_div]
  simp [jsRound100]

/-- ite_points_mono: a fixed point award is monotone along an implication of
its condition. -/
theorem ite_points_mono {p q : Prop} [Decidable p] [Decidable q] (v : Nat)
    (h : p → q) : (if p then v else 0) ≤ (if q then v else 0) := by
  split_ifs with hp hq
  · exact le_rfl
  · exact absurd (h hp) hq
  · exact Nat.zero_le _
  · exact Nat.zero_le _

/-- fallbackAnalysis_isError: fallbackAnalysis throws on every input — either
extractExperience throws first, or generateFeedback's read of the
nonexistent `keywords.actionWords` does. -/
theorem fallbackAnalysis_isError (text : String) :
    ∃ e, PDFTextExtractor.fallbackAnalysis text = Except.error e := by
  cases h : PDFTextExtractor.extractExperience text with
  | error e =>
    exact ⟨e, by unfold PDFTextExtractor.fallbackAnalysis; rw [h]; rfl⟩
  | ok exp =>
    exact ⟨"Cannot read properties of undefined (reading 'length')",
      by unfold PDFTextExtractor.fallbackAnalysis; rw [h]; rfl⟩

/-- C1 (counterexample): with the AI collaborator not configured, the advanced
analyzer does not return a heuristic AnalysisResult at all — it resolves with
success: false and the error "AI service is required for analysis. Please
configure the AI proxy."; and with AI configured, a transport failure is
surfaced to the caller as success: false with an "AI analysis failed"
error — contradicting the claim that an AI failure is never surfaced as an
error and always yields a heuristic result with aiEnhanced = false. -/
theorem c1_counterexample :
    (AdvancedATSAnalyzer.analyzeResumeAdvancedResponse false
        (AICallOutcome.transportFailure "connect ECONNREFUSED")).success = false
    ∧ (AdvancedATSAnalyzer.analyzeResumeAdvancedResponse false
        (AICallOutcome.transportFailure "connect ECONNREFUSED")).error =
      some "AI service is required for analysis. Please configure the AI proxy."
    ∧ (AdvancedATSAnalyzer.analyzeResumeAdvancedResponse true
        (AICallOutcome.transportFailure "connect ECONNREFUSED")).success = false
    ∧ (AdvancedATSAnalyzer.analyzeResumeAdvancedResponse true
        (AICallOutcome.transportFailure "connect ECONNREFUSED")).error =
      some "AI analysis failed: connect ECONNREFUSED" :=
  ⟨rfl, rfl, rfl, rfl⟩

/-- C1 (amended): on an unconfigured AI collaborator or a failing AI call the
advanced analyzer surfaces the failure as a success: false error response;
the text-based analyzer never surfaces the AI failure itself and never sets
any aiEnhanced marker on the failure path, but its heuristic fallback throws
on every input (generateFeedback reads the nonexistent keywords.actionWords
property), so analyzeResumeText also resolves with success: false and no
analysis object. -/
theorem c1_amended_ai_failure_behavior (text : String) (aiEnabled : Bool)
    (call : AICallOutcome) (m : String) :
    (AdvancedATSAnalyzer.analyzeResumeAdvancedResponse false call).success = false
    ∧ (AdvancedATSAnalyzer.analyzeResumeAdvancedResponse false call).error =
      some "AI service is required for analysis. Please configure the AI proxy."
    ∧ (AdvancedATSAnalyzer.analyzeResumeAdvancedResponse true
        (AICallOutcome.transportFailure m)).success = false
    ∧ (AdvancedATSAnalyzer.analyzeResumeAdvancedResponse true
        (AICallOutcome.transportFailure m)).error =
      some ("AI analysis failed: " ++ m)
    ∧ (∃ e, PDFTextExtractor.fallbackAnalysis text = Except.error e)
    ∧ (PDFTextExtractor.analyzeResumeText text aiEnabled call).success = false
    ∧ (PDFTextExtractor.analyzeResumeText text aiEnabled call).analysis = none := by
  obtain ⟨e, he⟩ := fallbackAnalysis_isError text
  refine ⟨rfl, rfl, rfl, rfl, ⟨e, he⟩, ?_, ?_⟩ <;>
    · unfold PDFTextExtractor.analyzeResumeText
      rw [he]

/-- C2 (counterexample): a text containing exactly the four canonical
sections Summary, Experience, Projects and Certifications (four of the six
canonical sections, so the claim requires hasProperHeaders = true) gets
hasProperHeaders = false, because analyzeLayoutStructure searches for the
list [summary, experience, education, skills, contact, objective], not the
canonical section list. -/
theorem c2_counterexample :
    4 ≤ specCanonicalSectionCount "summary experience projects certifications"
    ∧ (AdvancedATSAnalyzer.analyzeLayoutStructure
        "summary experience projects certifications"
        (AdvancedATSAnalyzer.extractLayoutInfo 1)).hasProperHeaders = false :=
  ⟨by decide, by decide⟩

/-- C2 (amended): hasProperHeaders is true iff at least 4 of the 6 header
keywords summary, experience, education, skills, contact, objective occur
(case-insensitively, as substrings) in the text. -/
theorem c2_amended_header_flag (text : String)
    (layout : AdvancedATSAnalyzer.LayoutMeta) :
    (AdvancedATSAnalyzer.analyzeLayoutStructure text layout).hasProperHeaders =
      decide (4 ≤ (AdvancedATSAnalyzer.sectionHeaders.filter
        (fun h => containsStr (jsToLower text) h)).length) := rfl

/-- C5 (counterexample): inserting a previously missing "skills" section
header plus five dash-listed skills into a text that had none lowers the
advanced heuristic total from 100 to 90 — the five new dash lines flip the
consistentFormatting flag (bullet/dash imbalance reaches 5 ≥ 3), costing the
layout axis 15 points that the insertion does not recover. -/
theorem c5_counterexample :
    (AdvancedATSAnalyzer.heuristicScoring
        "summary\nexperience\ncontact\nobjective" 1).total = 100
    ∧ (AdvancedATSAnalyzer.heuristicScoring
        ("summary\nexperience\ncontact\nobjective" ++
          "\nskills\n- ab\n- cd\n- ef\n- gh\n- ij") 1).total = 90
    ∧ (AdvancedATSAnalyzer.heuristicScoring
        ("summary\nexperience\ncontact\nobjective" ++
          "\nskills\n- ab\n- cd\n- ef\n- gh\n- ij") 1).total <
      (AdvancedATSAnalyzer.heuristicScoring
        "summary\nexperience\ncontact\nobjective" 1).total :=
  ⟨by decide, by decide, by decide⟩

/-- C5 (amended): the fallback scorer calculateATSScore is monotonically
non-decreasing in each positive-evidence signal — contact-field count,
recognised-section count, experience entries, education entries and skill
count — so at that scorer adding evidence never decreases the total; the
advanced scorer has no such property (see the counterexample). -/
theorem c5_amended_fallback_monotonicity (a b : PDFTextExtractor.Analysis)
    (hc : PDFTextExtractor.contactKeyCount a.contactInfo ≤
      PDFTextExtractor.contactKeyCount b.contactInfo)
    (hs : PDFTextExtractor.sectionTrueCount a.sections ≤
      PDFTextExtractor.sectionTrueCount b.sections)
    (he : a.experience.length ≤ b.experience.length)
    (hd : a.education.length ≤ b.education.length)
    (hk : a.skills.length ≤ b.skills.length) :
    PDFTextExtractor.calculateATSScore a ≤ PDFTextExtractor.calculateATSScore b := by
  unfold PDFTextExtractor.calculateATSScore
  refine min_le_min ?_ le_rfl
  refine Nat.add_le_add (Nat.add_le_add (Nat.add_le_add (Nat.add_le_add
    (ite_points_mono 20 ?_) (ite_points_mono 30 ?_)) (ite_points_mono 25 ?_))
    (ite_points_mono 15 ?_)) (ite_points_mono 10 ?_) <;> omega

/-- C5 (amended, witness): the fallback-scorer monotonicity at a concrete
pair — an empty analysis against one with every signal set. -/
theorem c5_amended_fallback_monotonicity_witness :
    PDFTextExtractor.calculateATSScore
      ⟨⟨false, false, false, false, false, false⟩, ⟨[], [], [], [], []⟩,
        ⟨false, false, false, false⟩, [], [], [], 0, [], "D", [], [], [], none⟩ ≤
    PDFTextExtractor.calculateATSScore
      ⟨⟨true, true, true, true, true, true⟩, ⟨[], [], [], [], []⟩,
        ⟨true, true, true, true⟩, [⟨"Software Engineer", "Acme Inc", "2019", ""⟩],
        [⟨"Bachelor of Science", "State University", "2015", ""⟩],
        ["javascript", "python", "react", "sql", "docker"], 0, [], "D", [], [], [],
        none⟩ :=
  c5_amended_fallback_monotonicity _ _ (by decide) (by decide) (by decide)
    (by decide) (by decide)

/-- C9: the fallback experience extractor is not total — in a text whose
experience section contains a line beginning with '-' before any job-title
line was recognised, the description branch fires with a null current entry
(its condition associates as (currentJob && startsWith bullet) || startsWith
dash) and the null dereference throws, so fallbackAnalysis fails with that
error for such texts. -/
theorem c9_extract_experience_throws :
    PDFTextExtractor.extractExperience "Experience\n- built things" =
      Except.error "Cannot read properties of null (reading 'description')"
    ∧ PDFTextExtractor.fallbackAnalysis "Experience\n- built things" =
      Except.error "Cannot read properties of null (reading 'description')" :=
  ⟨rfl, rfl⟩

/-- C10: in every layout analysis the properSpacing flag is false (it is
initialised false and never assigned), so the layout score never exceeds
65 even though the six per-flag awards sum to 75. -/
theorem c10_proper_spacing_dead_flag (text : String)
    (layout : AdvancedATSAnalyzer.LayoutMeta) :
    (AdvancedATSAnalyzer.analyzeLayoutStructure text layout).properSpacing = false
    ∧ (AdvancedATSAnalyzer.analyzeLayoutStructure text layout).score ≤ 65 := by
  constructor
  · rfl
  · simp only [AdvancedATSAnalyzer.analyzeLayoutStructure]
    split_ifs <;> simp_all

/-- C3: the keywordMatch figure of the job-match analysis equals the number
of matched job keywords divided by the total number of job keywords, times
100, rounded to the nearest integer; when the job description yields zero
keywords the 0/0 case is returned as 0 (the NaN intermediate is absorbed by
the `|| 0` on the return), never an error. -/
theorem c3_keyword_match_ratio (resumeText jobDescription : String) :
    ((AdvancedATSAnalyzer.extractKeywords jobDescription).length = 0 →
      AdvancedATSAnalyzer.keywordMatchField resumeText jobDescription = 0)
    ∧ ((AdvancedATSAnalyzer.extractKeywords jobDescription).length ≠ 0 →
      (AdvancedATSAnalyzer.keywordMatchField resumeText jobDescription : ℤ) =
        round (((AdvancedATSAnalyzer.matchedKeywords resumeText
            jobDescription).length * 100 : ℚ) /
          (AdvancedATSAnalyzer.extractKeywords jobDescription).length)) := by
  constructor
  · intro h
    simp [AdvancedATSAnalyzer.keywordMatchField, h]
  · intro h
    simp only [AdvancedATSAnalyzer.keywordMatchField, h, if_false]
    exact jsRound100_eq_round _ _ h

/-- C3 (witness): for the job description "need python and docker" and the
resume "python" there are two job keywords with one matched, and the
returned keywordMatch is the exact rounding of 1/2 · 100. -/
theorem c3_keyword_match_ratio_witness :
    (AdvancedATSAnalyzer.keywordMatchField "python" "need python and docker" : ℤ) =
      round (((AdvancedATSAnalyzer.matchedKeywords "python"
          "need python and docker").length * 100 : ℚ) /
        (AdvancedATSAnalyzer.extractKeywords "need python and docker").length) :=
  (c3_keyword_match_ratio "python" "need python and docker").2 (by decide)

/-- C4: experienceMatch is computed from the first "<N> years of experience"
occurrence in each text (parseFirstExperienceYears, absent parsed as 0): it
is 100 when the job description states no experience requirement, 100 when
the resume years meet or exceed the required years, and the nearest-integer
rounding of actualYears / requiredYears · 100 otherwise. -/
theorem c4_experience_match_rule (resumeText jobDescription : String) :
    ((AdvancedATSAnalyzer.parseFirstExperienceYears jobDescription).getD 0 = 0 →
      AdvancedATSAnalyzer.calculateExperienceMatch resumeText jobDescription = 100)
    ∧ ((AdvancedATSAnalyzer.parseFirstExperienceYears jobDescription).getD 0 ≠ 0 →
      (AdvancedATSAnalyzer.parseFirstExperienceYears jobDescription).getD 0 ≤
        (AdvancedATSAnalyzer.parseFirstExperienceYears resumeText).getD 0 →
      AdvancedATSAnalyzer.calculateExperienceMatch resumeText jobDescription = 100)
    ∧ ((AdvancedATSAnalyzer.parseFirstExperienceYears jobDescription).getD 0 ≠ 0 →
      (AdvancedATSAnalyzer.parseFirstExperienceYears resumeText).getD 0 <
        (AdvancedATSAnalyzer.parseFirstExperienceYears jobDescription).getD 0 →
      (AdvancedATSAnalyzer.calculateExperienceMatch resumeText jobDescription : ℤ) =
        round (((AdvancedATSAnalyzer.parseFirstExperienceYears resumeText).getD 0 *
            100 : ℚ) /
          ((AdvancedATSAnalyzer.parseFirstExperienceYears jobDescription).getD 0))) := by
  refine ⟨?_, ?_, ?_⟩
  · intro h
    simp [AdvancedATSAnalyzer.calculateExperienceMatch, h]
  · intro h1 h2
    simp [AdvancedATSAnalyzer.calculateExperienceMatch, h1, h2]
  · intro h1 h2
    simp only [AdvancedATSAnalyzer.calculateExperienceMatch, h1, if_false,
      Nat.not_le.mpr h2, if_neg]
    exact jsRound100_eq_round _ _ h1

/-- C4 (witness): a resume stating "5 years of experience" against a job
description stating "3 years of experience" meets the requirement, giving
100. -/
theorem c4_experience_match_rule_witness :
    AdvancedATSAnalyzer.calculateExperienceMatch "5 years of experience"
      "3 years of experience" = 100 :=
  (c4_experience_match_rule "5 years of experience" "3 years of experience").2.1
    (by decide) (by decide)

/-- C6: the 7-band grading is A+ for at least 90, A for 80 to 89, B+ for 70
to 79, B for 60 to 69, C+ for 50 to 59, C for 40 to 49 and D below 40, and
the fallback 4-band grading is A for at least 80, B for 60 to 79, C for 40
to 59 and D below 40; all thresholds are boundary-inclusive, and exactly 80
grades A under both schemes (79 grades B+ and B respectively). -/
theorem c6_grade_thresholds (s : Nat) :
    (90 ≤ s → AdvancedATSAnalyzer.getGrade s = "A+")
    ∧ (80 ≤ s → s < 90 → AdvancedATSAnalyzer.getGrade s = "A")
    ∧ (70 ≤ s → s < 80 → AdvancedATSAnalyzer.getGrade s = "B+")
    ∧ (60 ≤ s → s < 70 → AdvancedATSAnalyzer.getGrade s = "B")
    ∧ (50 ≤ s → s < 60 → AdvancedATSAnalyzer.getGrade s = "C+")
    ∧ (40 ≤ s → s < 50 → AdvancedATSAnalyzer.getGrade s = "C")
    ∧ (s < 40 → AdvancedATSAnalyzer.getGrade s = "D")
    ∧ (80 ≤ s → PDFTextExtractor.fallbackGradeOf s = "A")
    ∧ (60 ≤ s → s < 80 → PDFTextExtractor.fallbackGradeOf s = "B")
    ∧ (40 ≤ s → s < 60 → PDFTextExtractor.fallbackGradeOf s = "C")
    ∧ (s < 40 → PDFTextExtractor.fallbackGradeOf s = "D")
    ∧ AdvancedATSAnalyzer.getGrade 80 = "A"
    ∧ PDFTextExtractor.fallbackGradeOf 80 = "A"
    ∧ AdvancedATSAnalyzer.getGrade 79 = "B+"
    ∧ PDFTextExtractor.fallbackGradeOf 79 = "B" := by
  refine ⟨?_, ?_, ?_, ?_, ?_, ?_, ?_, ?_, ?_, ?_, ?_,
    by decide, by decide, by decide, by decide⟩ <;>
  · intros
    first
      | (unfold AdvancedATSAnalyzer.getGrade; split_ifs <;> first | rfl | omega)
      | (unfold PDFTextExtractor.fallbackGradeOf; split_ifs <;> first | rfl | omega)

/-- C6 (witness): the threshold rules applied at 95, 80 and 65. -/
theorem c6_grade_thresholds_witness :
    AdvancedATSAnalyzer.getGrade 95 = "A+"
    ∧ AdvancedATSAnalyzer.getGrade 80 = "A"
    ∧ PDFTextExtractor.fallbackGradeOf 65 = "B" :=
  ⟨(c6_grade_thresholds 95).1 (by decide),
    (c6_grade_thresholds 80).2.1 (by decide) (by decide),
    (c6_grade_thresholds 65).2.2.2.2.2.2.2.2.1 (by decide) (by decide)⟩

/-- C7: in every ScoreBreakdown the advanced heuristic scorer produces, the
total equals min(layout + fonts + content, 100), and the content axis never
exceeds 100: its five structural awards sum to at most 75 and the
keyword-density contribution is capped at min(keywordDensity · 2, 25). -/
theorem c7_total_invariant (text : String) (pageCount : Nat) :
    (AdvancedATSAnalyzer.heuristicScoring text pageCount).total =
      min ((AdvancedATSAnalyzer.heuristicScoring text pageCount).layout +
        (AdvancedATSAnalyzer.heuristicScoring text pageCount).fonts +
        (AdvancedATSAnalyzer.heuristicScoring text pageCount).content) 100
    ∧ (AdvancedATSAnalyzer.analyzeContentQuality text).score ≤ 100 := by
  constructor
  · rfl
  · simp only [AdvancedATSAnalyzer.analyzeContentQuality]
    have hmin : min (AdvancedATSAnalyzer.calculateKeywordDensity (jsToLower text) * 2)
        25 ≤ 25 := Nat.min_le_right _ _
    split_ifs <;> omega

/-- C8 (counterexample): the texts "a" and "a " differ, but after whitespace
normalization they feed the identical byte stream to the digest, so the two
cache keys coincide for any digest function — changing one field of the
triple does not always change the key. -/
theorem c8_counterexample :
    AdvancedATSAnalyzer.buildCacheKeyData "a" "general" "jd" =
      AdvancedATSAnalyzer.buildCacheKeyData "a " "general" "jd"
    ∧ AdvancedATSAnalyzer.buildCacheKey id "a" "general" "jd" =
      AdvancedATSAnalyzer.buildCacheKey id "a " "general" "jd"
    ∧ ("a" : String) ≠ "a " :=
  ⟨by decide, by decide, by decide⟩

/-- C8 (amended): the cache key is a pure function of the triple — it depends
only on the whitespace-normalized resume text, the mode, and the
whitespace-normalized job description, so identical triples always yield
identical keys; but a change to one field changes the key only when it
survives normalization and the digest (texts differing only in collapsed
whitespace collide). -/
theorem c8_amended_fingerprint (digest : String → String)
    (t1 t2 m j1 j2 : String)
    (ht : AdvancedATSAnalyzer.jsNormalizeWS t1 = AdvancedATSAnalyzer.jsNormalizeWS t2)
    (hj : AdvancedATSAnalyzer.jsNormalizeWS j1 = AdvancedATSAnalyzer.jsNormalizeWS j2) :
    AdvancedATSAnalyzer.buildCacheKey digest t1 m j1 =
      AdvancedATSAnalyzer.buildCacheKey digest t2 m j2 := by
  unfold AdvancedATSAnalyzer.buildCacheKey AdvancedATSAnalyzer.buildCacheKeyData
  rw [ht, hj]

/-- C8 (amended, witness): the key function applied to "a" and "a " with the
identity digest. -/
theorem c8_amended_fingerprint_witness :
    AdvancedATSAnalyzer.buildCacheKey id "b c" "general" "x" =
      AdvancedATSAnalyzer.buildCacheKey id "b  c" "general" "x" :=
  c8_amended_fingerprint id "b c" "b  c" "general" "x" "x" (by decide) (by decide)
